import Mathlib

/-!
Verification of the domain-setup validator (src/domain-validator-web/app.py).

The program consists of three checkers and an aggregator:
 * `dns_checks domain expected_ip expected_cname` resolves A and CNAME records,
   compares them against the optional expectations, and returns a `DnsResult`;
 * `https_check domain` issues a HEAD request and returns an `HttpsResult`;
 * `cert_check domain` opens a TLS connection, inspects the peer certificate
   (expiry, subject alternative names, hostname coverage) and returns a
   `CertResult`;
 * the POST handler `index` runs all three and combines their `ok` flags.

The embedding below is a direct translation of the Python source.  Network
and library effects are passed in explicitly:
 * the outcome of `dns.resolver.resolve(domain, "A")` is an
   `Option (List String)` (`none` models the resolver raising, which the code
   turns into the empty list);
 * the outcome of the CNAME lookup is an `Option String` (the text of the
   first answer, `none` when the lookup raises or has no answer);
 * the outcome of `requests.head` is an `Except String Nat` (either the final
   status code or the text of the raised `RequestException`);
 * the outcome of the TLS connection is an `Except String PyCert`, where
   `PyCert` mirrors the dictionary returned by `ssock.getpeercert()`;
 * `datetime.strptime` on the `notAfter` string together with the conversion
   to an absolute time is an `Except String Int` valued function (seconds
   since the epoch; an `error` models `strptime` raising `ValueError`), and
   `datetime.utcnow()` is an `Int` of the same unit.  Python computes
   `(dt - datetime.utcnow()).days`, and `timedelta.days` is the floor of the
   duration in days, i.e. `Int.fdiv` of the difference in seconds by 86400.

Python string idioms are modelled by list-level helpers with identical
semantics (`rstrip(".")`, `startswith`, `endswith`, slicing, `count`,
truthiness of `None` and the empty string).
-/

/-- Python `s.rstrip(".")`: remove every trailing dot. -/
def rstripDot (s : String) : String :=
  ⟨(s.data.reverse.dropWhile (fun c => c == '.')).reverse⟩

/-- Python `s.count(c)` for a single-character needle. -/
def pyCount (s : String) (c : Char) : Nat := s.data.count c

/-- Python `s.startswith(p)`. -/
def pyStartsWith (s p : String) : Bool := p.data.isPrefixOf s.data

/-- Python `s.endswith(suf)`. -/
def pyEndsWith (s suf : String) : Bool := suf.data.isSuffixOf s.data

/-- Python `s[1:]`. -/
def pyDrop1 (s : String) : String := ⟨s.data.drop 1⟩

/-- Python truthiness of an optional string: `None` and `""` are falsy. -/
def truthy : Option String → Bool
  | none => false
  | some s => !s.data.isEmpty

/-- Result dictionary built by `dns_checks` (app.py line 9). -/
structure DnsResult where
  ok : Bool
  a_records : List String
  cname : Option String
  errors : List String
  notes : List String
deriving Repr, DecidableEq

/-- app.py lines 26-28: if there are no A records and no (truthy) CNAME,
record the no-records error and clear `ok`; the fields before that point are
the resolver outcomes. -/
def dnsStep1 (domain : String) (a_records : List String)
    (cname : Option String) : DnsResult :=
  if a_records.isEmpty && !(truthy cname) then
    { ok := false, a_records := a_records, cname := cname,
      errors := ["No A or CNAME records found for " ++ domain], notes := [] }
  else
    { ok := true, a_records := a_records, cname := cname,
      errors := [], notes := [] }

/-- app.py lines 31-36: the expected-IP comparison. -/
def dnsStep2 (expected_ip : String) (r : DnsResult) : DnsResult :=
  if expected_ip ≠ "" then
    if r.a_records.contains expected_ip then
      { r with notes := r.notes ++
          ["Expected IP " ++ expected_ip ++ " present in A records."] }
    else
      { r with ok := false, errors := r.errors ++
          ["Expected IP " ++ expected_ip ++ " NOT found in A records."] }
  else r

/-- app.py lines 39-47: the expected-CNAME comparison.  Both sides are
normalised with `rstrip(".")`; on a mismatch the recorded error quotes the
stored CNAME when it is truthy and the word none otherwise. -/
def dnsStep3 (expected_cname : String) (r : DnsResult) : DnsResult :=
  if expected_cname ≠ "" then
    if rstripDot (r.cname.getD "") = rstripDot expected_cname then
      { r with notes := r.notes ++
          ["CNAME matches expected (" ++ expected_cname ++ ")."] }
    else
      { r with ok := false, errors := r.errors ++
          ["CNAME does not match expected. Found: \x27" ++
            (if truthy r.cname then r.cname.getD "" else "none") ++ "\x27"] }
  else r

/-- `dns_checks(domain, expected_ip, expected_cname)` (app.py lines 8-53).
`aAnswers = none` models the A lookup raising (the code stores `[]`);
`cnameAnswer` is the raw text of the first CNAME answer, which the code
stores after `rstrip(".")`, or `none` when that lookup raises.  The body
after the two resolver calls is pure, so the outer `except` is dead code. -/
def dns_checks (domain expected_ip expected_cname : String)
    (aAnswers : Option (List String)) (cnameAnswer : Option String) : DnsResult :=
  dnsStep3 expected_cname (dnsStep2 expected_ip
    (dnsStep1 domain (aAnswers.getD []) (cnameAnswer.map rstripDot)))

/-- Result dictionary built by `https_check` (app.py line 56). -/
structure HttpsResult where
  ok : Bool
  status : Option Nat
  errors : List String
deriving Repr, DecidableEq

/-- `https_check(domain)` (app.py lines 55-66), as a function of the outcome
of `requests.head`. -/
def https_check (requestOutcome : Except String Nat) : HttpsResult :=
  match requestOutcome with
  | Except.ok code =>
    if code ≥ 400 then
      { ok := false, status := some code,
        errors := ["HTTPS endpoint returned HTTP " ++ toString code] }
    else
      { ok := true, status := some code, errors := [] }
  | Except.error e =>
    { ok := false, status := none,
      errors := ["curl/requests failed to connect: " ++ e] }

/-- The peer-certificate dictionary returned by `ssock.getpeercert()`:
an optional `notAfter` string, an optional `subjectAltName` list of
(type, value) pairs, and an optional `subject` list of RDN tuples of
(key, value) pairs. -/
structure PyCert where
  notAfter : Option String
  subjectAltName : Option (List (String × String))
  subject : Option (List (List (String × String)))

/-- Result dictionary built by `cert_check` (app.py lines 69-77). -/
structure CertResult where
  ok : Bool
  not_after : Option String
  days_left : Option Int
  sans : List String
  covers_domain : Bool
  errors : List String
  warnings : List String
deriving Repr, DecidableEq

/-- The nested `covers(d, san)` (app.py lines 113-120): exact match, or a
wildcard SAN whose suffix (the SAN minus the leading star, so still starting
with a dot) ends the domain while the domain has strictly more dots. -/
def covers (d san : String) : Bool :=
  if san = d then true
  else if pyStartsWith san "*." then
    let suf := pyDrop1 san
    pyEndsWith d suf && pyCount d '.' > pyCount suf '.'
  else false

/-- app.py lines 100-110: DNS entries of `subjectAltName`, falling back to
the subject common name when that list is empty.  The inner `break` leaves
only the inner loop, so a later RDN containing a `commonName` overwrites an
earlier one. -/
def sanList (cert : PyCert) : List String :=
  let sans :=
    match cert.subjectAltName with
    | some entries => entries.filterMap
        (fun (kv : String × String) => if kv.1 == "DNS" then some kv.2 else none)
    | none => []
  if sans.isEmpty then
    match cert.subject with
    | some subj =>
        subj.foldl (fun (acc : List String) (tup : List (String × String)) =>
          match tup.find? (fun kv => kv.1 == "commonName") with
          | some kv => [kv.2]
          | none => acc) []
    | none => []
  else sans

/-- app.py lines 100-125: the part of `cert_check` after the expiry step:
SAN extraction, the coverage check, and assembly of the final dictionary.
`ok0` and `errors0` are the flag and error list produced by the expiry
step. -/
def certFinish (domain : String) (cert : PyCert) (not_after : Option String)
    (days_left : Option Int) (ok0 : Bool) (errors0 : List String) : CertResult :=
  let sans := sanList cert
  let covers_domain := sans.any (fun s => covers domain s)
  if covers_domain then
    { ok := ok0, not_after := not_after, days_left := days_left, sans := sans,
      covers_domain := true, errors := errors0, warnings := [] }
  else
    { ok := false, not_after := not_after, days_left := days_left, sans := sans,
      covers_domain := false,
      errors := errors0 ++ ["Certificate does NOT cover domain " ++ domain ++ "."],
      warnings := [] }

/-- `cert_check(domain)` (app.py lines 68-131).  `connectOutcome` is the TLS
connection plus `getpeercert` step; `parseNotAfter` is `strptime` composed
with conversion to absolute seconds; `nowUtc` is `datetime.utcnow()` in the
same unit.  A raised `ValueError` from `strptime` reaches the outer
`except`, at which point `not_after` has already been stored but nothing
after it has run. -/
def cert_check (domain : String) (connectOutcome : Except String PyCert)
    (parseNotAfter : String → Except String Int) (nowUtc : Int) : CertResult :=
  match connectOutcome with
  | Except.error e =>
    { ok := false, not_after := none, days_left := none, sans := [],
      covers_domain := false, errors := ["openssl/SSL failed: " ++ e],
      warnings := [] }
  | Except.ok cert =>
    match cert.notAfter with
    | some notAfterStr =>
      match parseNotAfter notAfterStr with
      | Except.error e =>
        { ok := false, not_after := some notAfterStr, days_left := none,
          sans := [], covers_domain := false,
          errors := ["openssl/SSL failed: " ++ e], warnings := [] }
      | Except.ok dt =>
        let days_left := Int.fdiv (dt - nowUtc) 86400
        if days_left < 0 then
          certFinish domain cert (some notAfterStr) (some days_left) false
            ["Certificate has expired."]
        else
          certFinish domain cert (some notAfterStr) (some days_left) true []
    | none =>
      certFinish domain cert none none false ["No certificate end date present."]

/-- The external outcomes a single validation request observes. -/
structure NetworkEnv where
  aAnswers : Option (List String)
  cnameAnswer : Option String
  requestOutcome : Except String Nat
  connectOutcome : Except String PyCert
  parseNotAfter : String → Except String Int
  nowUtc : Int

/-- The `data` dictionary assembled by the POST branch of `index`
(app.py lines 143-155). -/
structure ValidationReport where
  domain : String
  expected_ip : String
  expected_cname : String
  dns : DnsResult
  https : HttpsResult
  cert : CertResult
  ok_all : Bool

/-- The POST branch of `index` for a non-empty domain (app.py lines
143-155): run the three checkers and combine their `ok` flags with `and`. -/
def validate (domain expected_ip expected_cname : String)
    (env : NetworkEnv) : ValidationReport :=
  let dns_res := dns_checks domain expected_ip expected_cname
    env.aAnswers env.cnameAnswer
  let https_res := https_check env.requestOutcome
  let cert_res := cert_check domain env.connectOutcome env.parseNotAfter env.nowUtc
  { domain := domain, expected_ip := expected_ip, expected_cname := expected_cname,
    dns := dns_res, https := https_res, cert := cert_res,
    ok_all := dns_res.ok && https_res.ok && cert_res.ok }

/-! ### Helper lemmas -/

lemma ne_of_data_take (a b : String) (n : Nat)
    (h : a.data.take n ≠ b.data.take n) : a ≠ b := by
  intro he
  exact h (by rw [he])

lemma noRecords_ne_ipErr (d ip : String) :
    "No A or CNAME records found for " ++ d ≠
      "Expected IP " ++ ip ++ " NOT found in A records." := by
  apply ne_of_data_take _ _ 1
  simp [String.data_append, List.take_append]

lemma noRecords_ne_cnameErr (d f : String) :
    "No A or CNAME records found for " ++ d ≠
      "CNAME does not match expected. Found: \x27" ++ f ++ "\x27" := by
  apply ne_of_data_take _ _ 1
  simp [String.data_append, List.take_append]

lemma expired_ne_coverErr (d : String) :
    "Certificate has expired." ≠
      "Certificate does NOT cover domain " ++ d ++ "." := by
  apply ne_of_data_take _ _ 13
  simp [String.data_append, List.take_append]

lemma dnsStep1_a_records (d : String) (a : List String) (c : Option String) :
    (dnsStep1 d a c).a_records = a := by
  unfold dnsStep1; split <;> rfl

lemma dnsStep1_cname (d : String) (a : List String) (c : Option String) :
    (dnsStep1 d a c).cname = c := by
  unfold dnsStep1; split <;> rfl

lemma dnsStep2_cname (ip : String) (r : DnsResult) :
    (dnsStep2 ip r).cname = r.cname := by
  unfold dnsStep2; split <;> [skip; rfl]; split <;> rfl

lemma dnsStep3_cname (cn : String) (r : DnsResult) :
    (dnsStep3 cn r).cname = r.cname := by
  unfold dnsStep3; split <;> [skip; rfl]; split <;> rfl

lemma dnsStep2_a_records (ip : String) (r : DnsResult) :
    (dnsStep2 ip r).a_records = r.a_records := by
  unfold dnsStep2; split <;> [skip; rfl]; split <;> rfl

lemma dnsStep3_a_records (cn : String) (r : DnsResult) :
    (dnsStep3 cn r).a_records = r.a_records := by
  unfold dnsStep3; split <;> [skip; rfl]; split <;> rfl

lemma dns_checks_cname (d ip cn : String) (a : Option (List String))
    (c : Option String) :
    (dns_checks d ip cn a c).cname = c.map rstripDot := by
  unfold dns_checks
  rw [dnsStep3_cname, dnsStep2_cname, dnsStep1_cname]

lemma dns_checks_a_records (d ip cn : String) (a : Option (List String))
    (c : Option String) :
    (dns_checks d ip cn a c).a_records = a.getD [] := by
  unfold dns_checks
  rw [dnsStep3_a_records, dnsStep2_a_records, dnsStep1_a_records]

lemma dnsStep2_ok_mono (ip : String) (r : DnsResult) (h : r.ok = false) :
    (dnsStep2 ip r).ok = false := by
  unfold dnsStep2; split <;> [skip; exact h]; split <;> [exact h; rfl]

lemma dnsStep3_ok_mono (cn : String) (r : DnsResult) (h : r.ok = false) :
    (dnsStep3 cn r).ok = false := by
  unfold dnsStep3; split <;> [skip; exact h]; split <;> [exact h; rfl]

lemma dnsStep2_errors_mono (ip : String) (r : DnsResult) (m : String)
    (h : m ∈ r.errors) : m ∈ (dnsStep2 ip r).errors := by
  unfold dnsStep2; split <;> [skip; exact h]; split
  · exact h
  · exact List.mem_append_left _ h

lemma dnsStep3_errors_mono (cn : String) (r : DnsResult) (m : String)
    (h : m ∈ r.errors) : m ∈ (dnsStep3 cn r).errors := by
  unfold dnsStep3; split <;> [skip; exact h]; split
  · exact h
  · exact List.mem_append_left _ h

lemma dnsStep2_errors_sub (ip : String) (r : DnsResult) (m : String)
    (h : m ∈ (dnsStep2 ip r).errors) :
    m ∈ r.errors ∨ m = "Expected IP " ++ ip ++ " NOT found in A records." := by
  unfold dnsStep2 at h
  split at h
  · split at h
    · exact Or.inl h
    · rcases List.mem_append.1 h with h' | h'
      · exact Or.inl h'
      · exact Or.inr (List.mem_singleton.1 h')
  · exact Or.inl h

lemma dnsStep3_errors_sub (cn : String) (r : DnsResult) (m : String)
    (h : m ∈ (dnsStep3 cn r).errors) :
    m ∈ r.errors ∨ m = "CNAME does not match expected. Found: \x27" ++
      (if truthy r.cname then r.cname.getD "" else "none") ++ "\x27" := by
  unfold dnsStep3 at h
  split at h
  · split at h
    · exact Or.inl h
    · rcases List.mem_append.1 h with h' | h'
      · exact Or.inl h'
      · exact Or.inr (List.mem_singleton.1 h')
  · exact Or.inl h

lemma dnsStep1_errors (d : String) (a : List String) (c : Option String) :
    (dnsStep1 d a c).errors =
      if a.isEmpty && !(truthy c) then ["No A or CNAME records found for " ++ d]
      else [] := by
  unfold dnsStep1; split <;> rfl

lemma dnsStep1_ok (d : String) (a : List String) (c : Option String) :
    (dnsStep1 d a c).ok = !(a.isEmpty && !(truthy c)) := by
  unfold dnsStep1; split <;> simp_all
  tauto

lemma https_check_okCode (code : Nat) :
    https_check (Except.ok code) =
      if code ≥ 400 then
        { ok := false, status := some code,
          errors := ["HTTPS endpoint returned HTTP " ++ toString code] }
      else
        { ok := true, status := some code, errors := [] } := rfl

/-! ### C1 -/

/-- C1: the spec claims `covers(domain, sanEntry)` treats a wildcard SAN as
covering any domain that ends with the suffix obtained by stripping the
leading star and has strictly more labels than the suffix, giving in
particular `covers("a.example.com", "*.example.com") == true`.  The code
keeps the leading dot on the suffix and requires `d.count(".") >
suf.count(".")`, so `"a.example.com"` (2 dots) does not beat
`".example.com"` (2 dots): the code returns `False` there, contradicting
both the claim and the comment above the code.  This theorem evaluates the
code at the failing input and at the other three inputs named by the
claim and the spec. -/
theorem covers_eval_wildcard :
    covers "a.example.com" "*.example.com" = false ∧
    covers "a.b.example.com" "*.example.com" = true ∧
    covers "example.com" "*.example.com" = false ∧
    covers "example.com" "example.com" = true := by decide

/-! ### C2 -/

/-- C2: the report's `ok_all` is true exactly when the `ok` flags of the
DNS, HTTPS and certificate results are all true, for every combination of
checker outcomes. -/
theorem overallOk_iff_all_ok (domain expected_ip expected_cname : String)
    (env : NetworkEnv) :
    (validate domain expected_ip expected_cname env).ok_all = true ↔
      ((validate domain expected_ip expected_cname env).dns.ok = true ∧
       (validate domain expected_ip expected_cname env).https.ok = true ∧
       (validate domain expected_ip expected_cname env).cert.ok = true) := by
  simp [validate, Bool.and_eq_true, and_assoc]

/-! ### C4 -/

/-- C4: `https_check` reports `ok = false` exactly when the request failed
or the captured status is at least 400; on a failure the status stays
absent and an error is recorded; on a status of at least 400 the status is
present alongside an error entry, and below 400 no error is recorded. -/
theorem https_check_ok_iff (e : String) (code : Nat) :
    ((https_check (Except.error e)).ok = false ∧
     (https_check (Except.error e)).status = none ∧
     (https_check (Except.error e)).errors ≠ []) ∧
    ((https_check (Except.ok code)).status = some code) ∧
    ((https_check (Except.ok code)).ok = false ↔ 400 ≤ code) ∧
    (400 ≤ code → (https_check (Except.ok code)).errors ≠ []) ∧
    (code < 400 → (https_check (Except.ok code)).errors = []) := by
  refine ⟨⟨rfl, rfl, by simp [https_check]⟩, ?_, ?_, ?_, ?_⟩ <;> rw [https_check_okCode]
  · split <;> rfl
  · split <;> rename_i h <;> simp [h]
  · intro h; rw [if_pos h]; simp
  · intro h; rw [if_neg (by omega)]

/-- Witness for C4 at concrete outcomes: status 404 gives a failure with an
error recorded, status 200 gives no errors, and a failed request gives
`ok = false`. -/
theorem https_check_ok_iff_witness :
    (https_check (Except.ok 404)).ok = false ∧
    (https_check (Except.ok 404)).errors ≠ [] ∧
    (https_check (Except.ok 200)).errors = [] ∧
    (https_check (Except.error "connection refused")).ok = false := by
  refine ⟨?_, ?_, ?_, ?_⟩
  · exact (https_check_ok_iff "connection refused" 404).2.2.1.mpr (by decide)
  · exact (https_check_ok_iff "connection refused" 404).2.2.2.1 (by decide)
  · exact (https_check_ok_iff "connection refused" 200).2.2.2.2 (by decide)
  · exact (https_check_ok_iff "connection refused" 404).1.1

lemma certFinish_eq (domain : String) (cert : PyCert) (na : Option String)
    (dl : Option Int) (ok0 : Bool) (errs0 : List String) :
    certFinish domain cert na dl ok0 errs0 =
      if (sanList cert).any (fun s => covers domain s) then
        { ok := ok0, not_after := na, days_left := dl, sans := sanList cert,
          covers_domain := true, errors := errs0, warnings := [] }
      else
        { ok := false, not_after := na, days_left := dl, sans := sanList cert,
          covers_domain := false,
          errors := errs0 ++ ["Certificate does NOT cover domain " ++ domain ++ "."],
          warnings := [] } := rfl

lemma cert_check_error (domain e : String) (parse : String → Except String Int)
    (now : Int) :
    cert_check domain (Except.error e) parse now =
      { ok := false, not_after := none, days_left := none, sans := [],
        covers_domain := false, errors := ["openssl/SSL failed: " ++ e],
        warnings := [] } := rfl

lemma cert_check_noNotAfter (domain : String)
    (sanl : Option (List (String × String)))
    (subj : Option (List (List (String × String))))
    (parse : String → Except String Int) (now : Int) :
    cert_check domain (Except.ok ⟨none, sanl, subj⟩) parse now =
      certFinish domain ⟨none, sanl, subj⟩ none none false
        ["No certificate end date present."] := rfl

lemma cert_check_notAfter (domain s : String)
    (sanl : Option (List (String × String)))
    (subj : Option (List (List (String × String))))
    (parse : String → Except String Int) (now : Int) :
    cert_check domain (Except.ok ⟨some s, sanl, subj⟩) parse now =
      match parse s with
      | Except.error e =>
        { ok := false, not_after := some s, days_left := none, sans := [],
          covers_domain := false, errors := ["openssl/SSL failed: " ++ e],
          warnings := [] }
      | Except.ok dt =>
        if Int.fdiv (dt - now) 86400 < 0 then
          certFinish domain ⟨some s, sanl, subj⟩ (some s)
            (some (Int.fdiv (dt - now) 86400)) false ["Certificate has expired."]
        else
          certFinish domain ⟨some s, sanl, subj⟩ (some s)
            (some (Int.fdiv (dt - now) 86400)) true [] := rfl

lemma certFinish_covers (d : String) (c : PyCert) (na : Option String)
    (dl : Option Int) (ok0 : Bool) (e0 : List String) :
    (certFinish d c na dl ok0 e0).covers_domain =
      (sanList c).any (fun s => covers d s) := by
  rw [certFinish_eq]; split <;> rename_i h
  · exact h.symm
  · rw [Bool.not_eq_true] at h; exact h.symm

lemma cert_check_parseError (domain s e : String)
    (sanl : Option (List (String × String)))
    (subj : Option (List (List (String × String))))
    (parse : String → Except String Int) (now : Int)
    (hp : parse s = Except.error e) :
    cert_check domain (Except.ok ⟨some s, sanl, subj⟩) parse now =
      { ok := false, not_after := some s, days_left := none, sans := [],
        covers_domain := false, errors := ["openssl/SSL failed: " ++ e],
        warnings := [] } := by
  rw [cert_check_notAfter, hp]

lemma cert_check_parsed (domain s : String)
    (sanl : Option (List (String × String)))
    (subj : Option (List (List (String × String))))
    (parse : String → Except String Int) (now dt : Int)
    (hp : parse s = Except.ok dt) :
    cert_check domain (Except.ok ⟨some s, sanl, subj⟩) parse now =
      if Int.fdiv (dt - now) 86400 < 0 then
        certFinish domain ⟨some s, sanl, subj⟩ (some s)
          (some (Int.fdiv (dt - now) 86400)) false ["Certificate has expired."]
      else
        certFinish domain ⟨some s, sanl, subj⟩ (some s)
          (some (Int.fdiv (dt - now) 86400)) true [] := by
  rw [cert_check_notAfter, hp]

lemma certFinish_sans (d : String) (c : PyCert) (na : Option String)
    (dl : Option Int) (ok0 : Bool) (e0 : List String) :
    (certFinish d c na dl ok0 e0).sans = sanList c := by
  rw [certFinish_eq]; split <;> rfl

lemma certFinish_days_left (d : String) (c : PyCert) (na : Option String)
    (dl : Option Int) (ok0 : Bool) (e0 : List String) :
    (certFinish d c na dl ok0 e0).days_left = dl := by
  rw [certFinish_eq]; split <;> rfl

lemma certFinish_not_covered (d : String) (c : PyCert) (na : Option String)
    (dl : Option Int) (ok0 : Bool) (e0 : List String)
    (h : (sanList c).any (fun s => covers d s) = false) :
    (certFinish d c na dl ok0 e0).ok = false ∧
    ("Certificate does NOT cover domain " ++ d ++ ".") ∈
      (certFinish d c na dl ok0 e0).errors := by
  rw [certFinish_eq, if_neg (by simp [h])]
  exact ⟨rfl, by simp⟩

/-! ### C10 -/

/-- C10: every `CertResult` produced by `cert_check` has `ok = false`
exactly when its error list is non-empty: every branch that clears `ok`
also appends an error and no error is appended without clearing `ok`. -/
theorem cert_check_ok_iff_errors (domain : String)
    (conn : Except String PyCert) (parse : String → Except String Int)
    (now : Int) :
    (cert_check domain conn parse now).ok = false ↔
      (cert_check domain conn parse now).errors ≠ [] := by
  cases conn with
  | error e => rw [cert_check_error]; simp
  | ok cert =>
    obtain ⟨na, sanl, subj⟩ := cert
    cases na with
    | none => rw [cert_check_noNotAfter, certFinish_eq]; split <;> simp
    | some s =>
      cases hp : parse s with
      | error e => rw [cert_check_parseError domain s e sanl subj parse now hp]; simp
      | ok dt =>
        rw [cert_check_parsed domain s sanl subj parse now dt hp]
        by_cases hd : Int.fdiv (dt - now) 86400 < 0
        · rw [if_pos hd, certFinish_eq]; split <;> simp
        · rw [if_neg hd, certFinish_eq]; split <;> simp

/-! ### C3 -/

/-- C3: with the expiry timestamp modelled in seconds, `cert_check` stores
`days_left` as the floor of the difference between the parsed `notAfter`
time and the current UTC time in days; a negative `days_left` clears `ok`
and records the expired error, a non-negative one records no expired
error, and an absent `notAfter` clears `ok` and records the missing-date
error. -/
theorem cert_check_expiry (domain s : String) (cert : PyCert)
    (parse : String → Except String Int) (now dt : Int) :
    (cert.notAfter = some s → parse s = Except.ok dt →
      ((cert_check domain (Except.ok cert) parse now).days_left =
          some (Int.fdiv (dt - now) 86400) ∧
       (Int.fdiv (dt - now) 86400 < 0 →
         (cert_check domain (Except.ok cert) parse now).ok = false ∧
         "Certificate has expired." ∈
           (cert_check domain (Except.ok cert) parse now).errors) ∧
       (0 ≤ Int.fdiv (dt - now) 86400 →
         "Certificate has expired." ∉
           (cert_check domain (Except.ok cert) parse now).errors))) ∧
    (cert.notAfter = none →
      (cert_check domain (Except.ok cert) parse now).ok = false ∧
      "No certificate end date present." ∈
        (cert_check domain (Except.ok cert) parse now).errors) := by
  obtain ⟨na, sanl, subj⟩ := cert
  constructor
  · intro h1 h2
    have hna : na = some s := h1
    subst hna
    rw [cert_check_parsed domain s sanl subj parse now dt h2]
    by_cases hd : Int.fdiv (dt - now) 86400 < 0
    · rw [if_pos hd]
      refine ⟨certFinish_days_left _ _ _ _ _ _, fun _ => ?_, fun hge => absurd hd (by omega)⟩
      rw [certFinish_eq]; split
      · exact ⟨rfl, by simp⟩
      · exact ⟨rfl, by simp⟩
    · rw [if_neg hd]
      refine ⟨certFinish_days_left _ _ _ _ _ _, fun hlt => absurd hlt hd, fun _ => ?_⟩
      rw [certFinish_eq]; split
      · simp
      · simp [expired_ne_coverErr domain]
  · intro h1
    have hna : na = none := h1
    subst hna
    rw [cert_check_noNotAfter, certFinish_eq]
    split
    · exact ⟨rfl, by simp⟩
    · exact ⟨rfl, by simp⟩

/-- Witness for C3: a certificate whose `notAfter` parses to one day before
the current time has `days_left = -1`, a cleared `ok` and the expired
error; the missing-date branch fires on a certificate without `notAfter`. -/
theorem cert_check_expiry_witness :
    (cert_check "example.com"
        (Except.ok ⟨some "Aug 13 15:04:05 2025 GMT", some [("DNS", "example.com")], none⟩)
        (fun _ => Except.ok 0) 86400).days_left = some (-1) ∧
    (cert_check "example.com"
        (Except.ok ⟨some "Aug 13 15:04:05 2025 GMT", some [("DNS", "example.com")], none⟩)
        (fun _ => Except.ok 0) 86400).ok = false ∧
    "Certificate has expired." ∈
      (cert_check "example.com"
        (Except.ok ⟨some "Aug 13 15:04:05 2025 GMT", some [("DNS", "example.com")], none⟩)
        (fun _ => Except.ok 0) 86400).errors ∧
    (cert_check "example.com" (Except.ok ⟨none, some [("DNS", "example.com")], none⟩)
        (fun _ => Except.ok 0) 86400).ok = false := by
  have h := cert_check_expiry "example.com" "Aug 13 15:04:05 2025 GMT"
    ⟨some "Aug 13 15:04:05 2025 GMT", some [("DNS", "example.com")], none⟩
    (fun _ => Except.ok 0) 86400 0
  have h2 := h.1 rfl rfl
  have h3 := (cert_check_expiry "example.com" "Aug 13 15:04:05 2025 GMT"
    ⟨none, some [("DNS", "example.com")], none⟩
    (fun _ => Except.ok 0) 86400 0).2 rfl
  refine ⟨?_, (h2.2.1 (by decide)).1, (h2.2.1 (by decide)).2, h3.1⟩
  rw [h2.1]; decide

/-! ### C7 -/

/-- C7 counterexample: when the TLS connection fails, `cert_check` leaves
`covers_domain` at its initial `False` without appending the
does-NOT-cover error, so the claim that the error is appended whenever
`covers_domain` is false fails at this concrete input. -/
theorem cert_check_covers_counterexample :
    (cert_check "example.com" (Except.error "connection refused")
        (fun _ => Except.error "unused") 0).covers_domain = false ∧
    "Certificate does NOT cover domain example.com." ∉
      (cert_check "example.com" (Except.error "connection refused")
        (fun _ => Except.error "unused") 0).errors := by decide

/-- C7 amended: when the certificate is retrieved and the expiry step does
not raise (no `notAfter`, or a `notAfter` that parses), `covers_domain`
equals the disjunction of `covers` over the SAN list, a false
`covers_domain` forces `ok = false` with the does-NOT-cover error
recorded, and a true `covers_domain` is backed by a SAN entry that covers
the domain; when retrieval or parsing fails, `covers_domain` is false
with no coverage error. -/
theorem cert_check_covers_domain (domain : String) (cert : PyCert)
    (parse : String → Except String Int) (now : Int)
    (h : cert.notAfter = none ∨
      ∃ s dt, cert.notAfter = some s ∧ parse s = Except.ok dt) :
    ((cert_check domain (Except.ok cert) parse now).covers_domain =
       (cert_check domain (Except.ok cert) parse now).sans.any
         (fun s => covers domain s)) ∧
    ((cert_check domain (Except.ok cert) parse now).sans = sanList cert) ∧
    ((cert_check domain (Except.ok cert) parse now).covers_domain = false →
      (cert_check domain (Except.ok cert) parse now).ok = false ∧
      ("Certificate does NOT cover domain " ++ domain ++ ".") ∈
        (cert_check domain (Except.ok cert) parse now).errors) ∧
    ((cert_check domain (Except.ok cert) parse now).covers_domain = true →
      ∃ s, s ∈ (cert_check domain (Except.ok cert) parse now).sans ∧
        covers domain s = true) ∧
    (∀ e, (cert_check domain (Except.error e) parse now).covers_domain = false) := by
  obtain ⟨na, sanl, subj⟩ := cert
  have hform : ∃ na2 dl ok0 errs0,
      cert_check domain (Except.ok ⟨na, sanl, subj⟩) parse now =
        certFinish domain ⟨na, sanl, subj⟩ na2 dl ok0 errs0 := by
    rcases h with hna | ⟨s, dt, hna, hp⟩
    · have hna2 : na = none := hna
      subst hna2
      exact ⟨none, none, false, _, cert_check_noNotAfter domain sanl subj parse now⟩
    · have hna2 : na = some s := hna
      subst hna2
      rw [cert_check_parsed domain s sanl subj parse now dt hp]
      by_cases hd : Int.fdiv (dt - now) 86400 < 0
      · rw [if_pos hd]; exact ⟨_, _, _, _, rfl⟩
      · rw [if_neg hd]; exact ⟨_, _, _, _, rfl⟩
  obtain ⟨na2, dl, ok0, errs0, hEq⟩ := hform
  rw [hEq, certFinish_covers, certFinish_sans]
  refine ⟨rfl, rfl, ?_, ?_, ?_⟩
  · intro hc
    exact certFinish_not_covered domain ⟨na, sanl, subj⟩ na2 dl ok0 errs0 hc
  · intro hc
    obtain ⟨s, hs, hcov⟩ := List.any_eq_true.1 hc
    exact ⟨s, hs, hcov⟩
  · intro e; rfl

/-- Witness for C7 at a concrete certificate whose only SAN does not cover
the queried domain: the coverage flag is false, `ok` is cleared and the
does-NOT-cover error is recorded. -/
theorem cert_check_covers_domain_witness :
    (cert_check "example.com"
        (Except.ok ⟨some "X", some [("DNS", "other.com")], none⟩)
        (fun _ => Except.ok 864000) 0).ok = false ∧
    ("Certificate does NOT cover domain " ++ "example.com" ++ ".") ∈
      (cert_check "example.com"
        (Except.ok ⟨some "X", some [("DNS", "other.com")], none⟩)
        (fun _ => Except.ok 864000) 0).errors := by
  have h := cert_check_covers_domain "example.com"
    ⟨some "X", some [("DNS", "other.com")], none⟩
    (fun _ => Except.ok 864000) 0 (Or.inr ⟨"X", 864000, rfl, rfl⟩)
  exact h.2.2.1 (by decide)

lemma dnsStep2_empty (r : DnsResult) : dnsStep2 "" r = r := by
  unfold dnsStep2; rw [if_neg]; simp

lemma dnsStep3_empty (r : DnsResult) : dnsStep3 "" r = r := by
  unfold dnsStep3; rw [if_neg]; simp

lemma dnsStep1_inv (d : String) (a : List String) (c : Option String) :
    (dnsStep1 d a c).ok = false ↔ (dnsStep1 d a c).errors ≠ [] := by
  unfold dnsStep1; split <;> simp

lemma dnsStep2_inv (ip : String) (r : DnsResult)
    (h : r.ok = false ↔ r.errors ≠ []) :
    (dnsStep2 ip r).ok = false ↔ (dnsStep2 ip r).errors ≠ [] := by
  unfold dnsStep2; split
  · split
    · exact h
    · simp
  · exact h

lemma dnsStep3_inv (cn : String) (r : DnsResult)
    (h : r.ok = false ↔ r.errors ≠ []) :
    (dnsStep3 cn r).ok = false ↔ (dnsStep3 cn r).errors ≠ [] := by
  unfold dnsStep3; split
  · split
    · exact h
    · simp
  · exact h

lemma dns_checks_inv (domain expected_ip expected_cname : String)
    (aAnswers : Option (List String)) (cnameAnswer : Option String) :
    (dns_checks domain expected_ip expected_cname aAnswers cnameAnswer).ok = false ↔
      (dns_checks domain expected_ip expected_cname aAnswers cnameAnswer).errors ≠ [] :=
  dnsStep3_inv _ _ (dnsStep2_inv _ _ (dnsStep1_inv _ _ _))

lemma dns_noRecords_not_mem (domain ip cn : String) (a : List String)
    (c : Option String) (h : (dnsStep1 domain a c).errors = []) :
    ("No A or CNAME records found for " ++ domain) ∉
      (dnsStep3 cn (dnsStep2 ip (dnsStep1 domain a c))).errors := by
  intro hmem
  rcases dnsStep3_errors_sub cn _ _ hmem with hmem2 | heq
  · rcases dnsStep2_errors_sub ip _ _ hmem2 with hmem3 | heq2
    · rw [h] at hmem3; exact absurd hmem3 (List.not_mem_nil _)
    · exact noRecords_ne_ipErr domain ip heq2
  · exact noRecords_ne_cnameErr domain _ heq

/-! ### C5 -/

/-- C5 counterexample: a CNAME lookup whose first answer is the root name
`"."` is stored as the present-but-empty string `""`, which Python
truthiness treats as missing, so the no-records error is recorded even
though the result carries a (present) CNAME value. -/
theorem dns_checks_empty_cname_counterexample :
    (dns_checks "example.com" "" "" (some []) (some ".")).cname = some "" ∧
    (dns_checks "example.com" "" "" (some []) (some ".")).ok = false ∧
    "No A or CNAME records found for example.com" ∈
      (dns_checks "example.com" "" "" (some []) (some ".")).errors := by decide

/-- C5 amended: the no-records error together with `ok = false` is produced
exactly when the A-record list is empty and the stored CNAME is absent or
empty (Python truthiness); when an A record exists, or the stored CNAME is
a non-empty string, the error is not added. -/
theorem dns_checks_no_records (domain expected_ip expected_cname : String)
    (aAnswers : Option (List String)) (cnameAnswer : Option String) :
    ((dns_checks domain expected_ip expected_cname aAnswers cnameAnswer).a_records = [] →
     truthy (dns_checks domain expected_ip expected_cname aAnswers cnameAnswer).cname = false →
      (dns_checks domain expected_ip expected_cname aAnswers cnameAnswer).ok = false ∧
      ("No A or CNAME records found for " ++ domain) ∈
        (dns_checks domain expected_ip expected_cname aAnswers cnameAnswer).errors) ∧
    (truthy (dns_checks domain expected_ip expected_cname aAnswers cnameAnswer).cname = true →
      ("No A or CNAME records found for " ++ domain) ∉
        (dns_checks domain expected_ip expected_cname aAnswers cnameAnswer).errors) ∧
    ((dns_checks domain expected_ip expected_cname aAnswers cnameAnswer).a_records ≠ [] →
      ("No A or CNAME records found for " ++ domain) ∉
        (dns_checks domain expected_ip expected_cname aAnswers cnameAnswer).errors) := by
  have hA := dns_checks_a_records domain expected_ip expected_cname aAnswers cnameAnswer
  have hC := dns_checks_cname domain expected_ip expected_cname aAnswers cnameAnswer
  refine ⟨?_, ?_, ?_⟩
  · intro ha hc
    rw [hA] at ha
    rw [hC] at hc
    have hcond : ((aAnswers.getD []).isEmpty &&
        !(truthy (cnameAnswer.map rstripDot))) = true := by
      simp [ha, hc]
    constructor
    · unfold dns_checks
      apply dnsStep3_ok_mono
      apply dnsStep2_ok_mono
      rw [dnsStep1_ok, hcond]
      rfl
    · unfold dns_checks
      apply dnsStep3_errors_mono
      apply dnsStep2_errors_mono
      rw [dnsStep1_errors, if_pos hcond]
      exact List.mem_singleton_self _
  · intro hc
    rw [hC] at hc
    unfold dns_checks
    apply dns_noRecords_not_mem
    rw [dnsStep1_errors]
    simp [hc]
  · intro ha
    rw [hA] at ha
    unfold dns_checks
    apply dns_noRecords_not_mem
    rw [dnsStep1_errors]
    simp [ha]

/-- Witness for the amended C5: no A records and no CNAME produce the
error with `ok = false`; a present A record suppresses it. -/
theorem dns_checks_no_records_witness :
    (dns_checks "example.com" "" "" (some []) none).ok = false ∧
    ("No A or CNAME records found for " ++ "example.com") ∈
      (dns_checks "example.com" "" "" (some []) none).errors ∧
    ("No A or CNAME records found for " ++ "example.com") ∉
      (dns_checks "example.com" "" "" (some ["1.2.3.4"]) none).errors := by
  have h1 := (dns_checks_no_records "example.com" "" "" (some []) none).1
    (by decide) (by decide)
  have h2 := (dns_checks_no_records "example.com" "" "" (some ["1.2.3.4"]) none).2.2
    (by decide)
  exact ⟨h1.1, h1.2, h2⟩

/-! ### C6 -/

lemma dnsStep3_match (cn : String) (r : DnsResult) (hcn : cn ≠ "")
    (hm : rstripDot (r.cname.getD "") = rstripDot cn) :
    dnsStep3 cn r =
      { r with notes := r.notes ++ ["CNAME matches expected (" ++ cn ++ ")."] } := by
  unfold dnsStep3; rw [if_pos hcn, if_pos hm]

lemma dnsStep3_mismatch (cn : String) (r : DnsResult) (hcn : cn ≠ "")
    (hm : rstripDot (r.cname.getD "") ≠ rstripDot cn) :
    dnsStep3 cn r =
      { r with ok := false, errors := r.errors ++
          ["CNAME does not match expected. Found: \x27" ++
            (if truthy r.cname then r.cname.getD "" else "none") ++ "\x27"] } := by
  unfold dnsStep3; rw [if_pos hcn, if_neg hm]

/-- C6: with a non-empty `expected_cname`, the comparison strips trailing
dots from both the stored CNAME and the expectation; on a match a note is
appended and the errors and `ok` flag are exactly those of the same run
without a CNAME expectation, and on a mismatch `ok` is cleared and an
error quoting the stored CNAME (or the word none) is appended. -/
theorem dns_checks_cname_norm (domain expected_ip expected_cname : String)
    (aAnswers : Option (List String)) (cnameAnswer : Option String)
    (h : expected_cname ≠ "") :
    (rstripDot ((dns_checks domain expected_ip expected_cname aAnswers cnameAnswer).cname.getD "") =
        rstripDot expected_cname →
      ("CNAME matches expected (" ++ expected_cname ++ ").") ∈
        (dns_checks domain expected_ip expected_cname aAnswers cnameAnswer).notes ∧
      (dns_checks domain expected_ip expected_cname aAnswers cnameAnswer).errors =
        (dns_checks domain expected_ip "" aAnswers cnameAnswer).errors ∧
      (dns_checks domain expected_ip expected_cname aAnswers cnameAnswer).ok =
        (dns_checks domain expected_ip "" aAnswers cnameAnswer).ok) ∧
    (rstripDot ((dns_checks domain expected_ip expected_cname aAnswers cnameAnswer).cname.getD "") ≠
        rstripDot expected_cname →
      (dns_checks domain expected_ip expected_cname aAnswers cnameAnswer).ok = false ∧
      ("CNAME does not match expected. Found: \x27" ++
        (if truthy (dns_checks domain expected_ip expected_cname aAnswers cnameAnswer).cname
          then (dns_checks domain expected_ip expected_cname aAnswers cnameAnswer).cname.getD ""
          else "none") ++ "\x27") ∈
        (dns_checks domain expected_ip expected_cname aAnswers cnameAnswer).errors) := by
  have hcn3 : (dns_checks domain expected_ip expected_cname aAnswers cnameAnswer).cname =
      (dnsStep2 expected_ip (dnsStep1 domain (aAnswers.getD [])
        (cnameAnswer.map rstripDot))).cname := dnsStep3_cname _ _
  have hempty : dns_checks domain expected_ip "" aAnswers cnameAnswer =
      dnsStep2 expected_ip (dnsStep1 domain (aAnswers.getD [])
        (cnameAnswer.map rstripDot)) := dnsStep3_empty _
  constructor
  · intro hm
    rw [hcn3] at hm
    have heq : dns_checks domain expected_ip expected_cname aAnswers cnameAnswer =
        { dnsStep2 expected_ip (dnsStep1 domain (aAnswers.getD [])
            (cnameAnswer.map rstripDot)) with
          notes := (dnsStep2 expected_ip (dnsStep1 domain (aAnswers.getD [])
            (cnameAnswer.map rstripDot))).notes ++
            ["CNAME matches expected (" ++ expected_cname ++ ")."] } :=
      dnsStep3_match expected_cname _ h hm
    rw [heq, hempty]
    exact ⟨List.mem_append_right _ (List.mem_singleton_self _), rfl, rfl⟩
  · intro hm
    rw [hcn3] at hm
    have heq : dns_checks domain expected_ip expected_cname aAnswers cnameAnswer =
        { dnsStep2 expected_ip (dnsStep1 domain (aAnswers.getD [])
            (cnameAnswer.map rstripDot)) with
          ok := false,
          errors := (dnsStep2 expected_ip (dnsStep1 domain (aAnswers.getD [])
            (cnameAnswer.map rstripDot))).errors ++
            ["CNAME does not match expected. Found: \x27" ++
              (if truthy (dnsStep2 expected_ip (dnsStep1 domain (aAnswers.getD [])
                  (cnameAnswer.map rstripDot))).cname
                then (dnsStep2 expected_ip (dnsStep1 domain (aAnswers.getD [])
                  (cnameAnswer.map rstripDot))).cname.getD ""
                else "none") ++ "\x27"] } :=
      dnsStep3_mismatch expected_cname _ h hm
    rw [heq]
    exact ⟨rfl, List.mem_append_right _ (List.mem_singleton_self _)⟩

/-- Witness for C6: expectation `foo.example.com.` (trailing dot) against
resolved CNAME `foo.example.com` is treated as a match, a note is added
and no error is recorded. -/
theorem dns_checks_cname_norm_witness :
    ("CNAME matches expected (" ++ "foo.example.com." ++ ").") ∈
      (dns_checks "d.example" "" "foo.example.com." (some ["1.2.3.4"])
        (some "foo.example.com")).notes ∧
    (dns_checks "d.example" "" "foo.example.com." (some ["1.2.3.4"])
        (some "foo.example.com")).errors = [] := by
  have h := (dns_checks_cname_norm "d.example" "" "foo.example.com."
    (some ["1.2.3.4"]) (some "foo.example.com") (by decide)).1 (by decide)
  refine ⟨h.1, ?_⟩
  rw [h.2.1]
  decide

/-! ### C8 -/

/-- C8: a `DnsResult` has `ok = false` exactly when its error list is
non-empty; the expected-IP and expected-CNAME steps never flip `ok` back
to true, and the initial step leaves `ok` true whenever it records no
error. -/
theorem dns_checks_ok_invariant (domain expected_ip expected_cname : String)
    (aAnswers : Option (List String)) (cnameAnswer : Option String) :
    ((dns_checks domain expected_ip expected_cname aAnswers cnameAnswer).errors ≠ [] →
      (dns_checks domain expected_ip expected_cname aAnswers cnameAnswer).ok = false) ∧
    ((dns_checks domain expected_ip expected_cname aAnswers cnameAnswer).ok = false →
      (dns_checks domain expected_ip expected_cname aAnswers cnameAnswer).errors ≠ []) ∧
    (∀ r : DnsResult, r.ok = false → (dnsStep2 expected_ip r).ok = false) ∧
    (∀ r : DnsResult, r.ok = false → (dnsStep3 expected_cname r).ok = false) ∧
    ((dnsStep1 domain (aAnswers.getD []) (cnameAnswer.map rstripDot)).errors = [] →
      (dnsStep1 domain (aAnswers.getD []) (cnameAnswer.map rstripDot)).ok = true) := by
  refine ⟨(dns_checks_inv domain expected_ip expected_cname aAnswers cnameAnswer).2,
    (dns_checks_inv domain expected_ip expected_cname aAnswers cnameAnswer).1,
    dnsStep2_ok_mono expected_ip, dnsStep3_ok_mono expected_cname, ?_⟩
  intro he
  cases hok : (dnsStep1 domain (aAnswers.getD []) (cnameAnswer.map rstripDot)).ok with
  | false => exact absurd ((dnsStep1_inv _ _ _).1 hok) (by simp [he])
  | true => rfl

/-- Witness for C8: a run that records the no-records error has
`ok = false` and a non-empty error list; a run with an A record leaves the
initial step's `ok` at true. -/
theorem dns_checks_ok_invariant_witness :
    (dns_checks "example.com" "" "" (some []) none).ok = false ∧
    (dns_checks "example.com" "" "" (some []) none).errors ≠ [] ∧
    (dnsStep1 "example.com" ((some ["1.2.3.4"] : Option (List String)).getD [])
      ((none : Option String).map rstripDot)).ok = true := by
  refine ⟨(dns_checks_ok_invariant "example.com" "" "" (some []) none).1 (by decide),
    (dns_checks_ok_invariant "example.com" "" "" (some []) none).2.1 (by decide),
    (dns_checks_ok_invariant "example.com" "" "" (some ["1.2.3.4"]) none).2.2.2.2
      (by decide)⟩

/-! ### C9 -/

/-- C9 counterexample: a failing A-record lookup (modelled by
`aAnswers = none`) is a failure mode inside `dns_checks`, yet with a
resolvable CNAME the checker returns `ok = true` and an empty error list:
the failure is absorbed, not converted into an error entry with
`ok = false`. -/
theorem dns_checks_absorbed_failure :
    (dns_checks "example.com" "" "" none (some "host.example.com.")).ok = true ∧
    (dns_checks "example.com" "" "" none (some "host.example.com.")).errors = [] := by
  decide

/-- C9 amended: no checker propagates a failure (each is a total function
into its result type); a failed HTTPS request, a failed certificate
retrieval and a failing `notAfter` parse each yield `ok = false` with an
error recorded; inside `dns_checks` a failed A lookup is absorbed as the
empty record list — identical to a lookup that returned no records — and
only the combination of no A records and no CNAME yields the no-records
error with `ok = false`. -/
theorem checker_boundary_errors (domain expected_ip expected_cname s e detail : String)
    (sanl : Option (List (String × String)))
    (subj : Option (List (List (String × String))))
    (parse : String → Except String Int) (now : Int)
    (cnameAnswer : Option String) :
    ((https_check (Except.error e)).ok = false ∧
     (https_check (Except.error e)).errors ≠ []) ∧
    ((cert_check domain (Except.error e) parse now).ok = false ∧
     (cert_check domain (Except.error e) parse now).errors ≠ []) ∧
    ((cert_check domain (Except.ok ⟨some s, sanl, subj⟩)
        (fun _ => Except.error detail) now).ok = false ∧
     (cert_check domain (Except.ok ⟨some s, sanl, subj⟩)
        (fun _ => Except.error detail) now).errors ≠ []) ∧
    ((dns_checks domain "" "" none none).ok = false ∧
     ("No A or CNAME records found for " ++ domain) ∈
       (dns_checks domain "" "" none none).errors) ∧
    (dns_checks domain expected_ip expected_cname none cnameAnswer =
      dns_checks domain expected_ip expected_cname (some []) cnameAnswer) := by
  refine ⟨⟨rfl, by simp [https_check]⟩, ?_, ?_, ?_, rfl⟩
  · rw [cert_check_error]
    exact ⟨rfl, by simp⟩
  · rw [cert_check_parseError domain s detail sanl subj _ now rfl]
    exact ⟨rfl, by simp⟩
  · have h1 : dns_checks domain "" "" none none = dnsStep1 domain [] none := by
      unfold dns_checks
      rw [dnsStep2_empty, dnsStep3_empty]
      rfl
    rw [h1]
    constructor
    · rw [dnsStep1_ok]; rfl
    · rw [dnsStep1_errors, if_pos (by rfl)]
      exact List.mem_singleton_self _
